import Mathlib

/-!
Verification of the Raiders3D MCU port (src/Raiders3D/Raiders3D.ino).

The game state and per-frame logic are shallowly embedded: C floats become
rationals (all reachable values here are small integers, exactly representable
in IEEE single precision, so rational arithmetic is exact for them), the
int8_t / int16_t counters become integers reduced by explicit wrapping
functions, the hardware RNG becomes an explicit stream of natural numbers
consumed in call order, and the button pins become explicit booleans
(true = pressed, matching the active-low digitalRead tests in the source).
Drawing calls have no effect on game state and are modelled only through the
screen-coordinate and clipping computations that feed collision detection.
-/

namespace Raiders3D

/-! ## Configuration constants (lines 58-90 of the source) -/

def WINDOW_WIDTH : Int := 128
def WINDOW_HEIGHT : Int := 160
abbrev NUM_STARS : Nat := 24
abbrev NUM_TIES : Nat := 2
def TIES_MISSED_END_GAME : Int := 16
def NEAR_Z : Int := 10
def FAR_Z : Int := 1000
def VIEW_DISTANCE : Int := 64
def CROSS_VEL : Int := 6
abbrev NUM_TIE_VERTS : Nat := 10
abbrev NUM_TIE_EDGES : Nat := 8
abbrev NUM_EXPLOSIONS : Nat := NUM_TIES
def GAME_RUNNING : Int := 1
def GAME_OVER : Int := 0

/-! ## Machine-integer helpers

`int8wrap` / `int16wrap` model assignment to the int8_t and int16_t globals
(two complement wraparound). `ratTrunc` models C float-to-int conversion,
which truncates toward zero. -/

def int8wrap (x : Int) : Int := (x + 128) % 256 - 128

def int16wrap (x : Int) : Int := (x + 32768) % 65536 - 32768

def ratTrunc (q : ℚ) : Int := q.num.tdiv (q.den : Int)

/-- Shift a random stream past its first `n` values (values a call consumed). -/
def shift (r : ℕ → ℕ) (n : ℕ) : ℕ → ℕ := fun i => r (i + n)

/-! ## Data model (lines 108-145 of the source) -/

/-- A 3D point with a packed 16-bit color (struct POINT3D_TYP). -/
structure POINT3D where
  color : ℕ
  x : ℚ
  y : ℚ
  z : ℚ
deriving DecidableEq

/-- An edge of the wireframe model: two indices into the vertex list
(struct LINE3D_TYP); the indices are always in range in the source data,
so they are embedded as `Fin NUM_TIE_VERTS`. -/
structure LINE3D where
  color : ℕ
  v1 : Fin NUM_TIE_VERTS
  v2 : Fin NUM_TIE_VERTS
deriving DecidableEq

/-- A tie fighter (struct TIE_TYP): state 0 = dead, 1 = alive. -/
structure TIE where
  state : Int
  x : ℚ
  y : ℚ
  z : ℚ
  xv : ℚ
  yv : ℚ
  zv : ℚ
deriving DecidableEq

/-- A velocity vector (struct VEC3D_TYP). -/
structure VEC3D where
  x : ℚ
  y : ℚ
  z : ℚ
deriving DecidableEq

/-- A wireframe explosion (struct EXPL_TYP): per-edge start point, end point
and shrapnel velocity, indexed by the edge number. -/
structure EXPL where
  state : Int
  counter : Int
  color : ℕ
  p1 : Fin NUM_TIE_EDGES → POINT3D
  p2 : Fin NUM_TIE_EDGES → POINT3D
  vel : Fin NUM_TIE_EDGES → VEC3D

instance : DecidableEq EXPL := fun a b =>
  decidable_of_iff
    (a.state = b.state ∧ a.counter = b.counter ∧ a.color = b.color ∧
      a.p1 = b.p1 ∧ a.p2 = b.p2 ∧ a.vel = b.vel)
    (by cases a; cases b; simp)

/-! ## Color packing (lines 218-220) -/

/-- `RGB16Bit`: packs 8-bit channels into a 16-bit 5-6-5 color.  The source
computes `(b >> 3) + ((g >> 2) << 5) + ((r >> 3) << 11)` and returns it as
`uint16_t` (hence the reduction mod 2^16). -/
def RGB16Bit (r g b : ℕ) : ℕ :=
  ((b >>> 3) + ((g >>> 2) <<< 5) + ((r >>> 3) <<< 11)) % 65536

/-! ## The tie fighter model data (lines 311-342) -/

def rgb_green : ℕ := RGB16Bit 0 255 0

def rgb_white : ℕ := RGB16Bit 255 255 255

/-- The vertex list of the tie fighter model (temp_tie_vlist). -/
def tie_vlist : Fin NUM_TIE_VERTS → POINT3D :=
  ![⟨rgb_white, -40, 40, 0⟩, ⟨rgb_white, -40, 0, 0⟩, ⟨rgb_white, -40, -40, 0⟩,
    ⟨rgb_white, -10, 0, 0⟩, ⟨rgb_white, 0, 20, 0⟩, ⟨rgb_white, 10, 0, 0⟩,
    ⟨rgb_white, 0, -20, 0⟩, ⟨rgb_white, 40, 40, 0⟩, ⟨rgb_white, 40, 0, 0⟩,
    ⟨rgb_white, 40, -40, 0⟩]

/-- The edge list of the tie fighter model (temp_tie_shape). -/
def tie_shape : Fin NUM_TIE_EDGES → LINE3D :=
  ![⟨rgb_green, 0, 2⟩, ⟨rgb_green, 1, 3⟩, ⟨rgb_green, 3, 4⟩, ⟨rgb_green, 4, 5⟩,
    ⟨rgb_green, 5, 6⟩, ⟨rgb_green, 6, 3⟩, ⟨rgb_green, 5, 8⟩, ⟨rgb_green, 7, 9⟩]

/-! ## Explosions (lines 361-475) -/

/-- The explosion record built by `Start_Explosion` once a free slot is found
(lines 370-392): state enabled, counter reset, green color, each edge copied
from the world-space geometry of the destroyed tie (position plus local vertex
offsets) and given a shrapnel velocity from three random draws.  The random
draws happen per edge in source order (x, y, z), so edge `e` consumes stream
values `3e`, `3e+1`, `3e+2`; the POINT3D color fields are never written by the
source (they stay zero-initialized). -/
def explosionFrom (t : TIE) (r : ℕ → ℕ) : EXPL where
  state := 1
  counter := 0
  color := rgb_green
  p1 := fun e =>
    ⟨0, t.x + (tie_vlist (tie_shape e).v1).x,
        t.y + (tie_vlist (tie_shape e).v1).y,
        t.z + (tie_vlist (tie_shape e).v1).z⟩
  p2 := fun e =>
    ⟨0, t.x + (tie_vlist (tie_shape e).v2).x,
        t.y + (tie_vlist (tie_shape e).v2).y,
        t.z + (tie_vlist (tie_shape e).v2).z⟩
  vel := fun e =>
    ⟨t.xv - 16 + ((r (3 * e.val) % 32 : ℕ) : ℚ),
     t.yv - 16 + ((r (3 * e.val + 1) % 32 : ℕ) : ℚ),
     -7 + ((r (3 * e.val + 2) % 8 : ℕ) : ℚ)⟩

/-- `Start_Explosion` (lines 361-398): scan the pool for the first slot with
state 0; fill it from the tie and return, leaving the rest untouched; if no
slot is free, do nothing.  The second component is the number of random
values consumed (24 when a slot is found — 3 per edge — and 0 otherwise,
since the scan itself never calls rand). -/
def Start_Explosion : List EXPL → TIE → (ℕ → ℕ) → List EXPL × ℕ
  | [], _, _ => ([], 0)
  | e :: rest, t, r =>
    if e.state = 0 then (explosionFrom t r :: rest, 24)
    else ((e :: (Start_Explosion rest t r).1, (Start_Explosion rest t r).2))

/-- Advance one point by a shrapnel velocity (lines 416-422). -/
def movePoint (p : POINT3D) (v : VEC3D) : POINT3D :=
  { p with x := p.x + v.x, y := p.y + v.y, z := p.z + v.z }

/-- `Process_Explosions` (lines 404-431): every active explosion moves both
endpoints of every edge by that edge velocity, then increments its counter;
when the counter passes 100 the slot is deactivated (state and counter reset,
the moved geometry is left in place). -/
def Process_Explosions (pool : List EXPL) : List EXPL :=
  pool.map fun e =>
    if e.state = 0 then e
    else
      let e2 := { e with p1 := fun i => movePoint (e.p1 i) (e.vel i),
                         p2 := fun i => movePoint (e.p2 i) (e.vel i) }
      let c := int8wrap (e.counter + 1)
      if c > 100 then { e2 with state := 0, counter := 0 }
      else { e2 with counter := c }

/-- The near-plane test of `Draw_Explosions` (lines 453-456): an edge of an
active explosion is skipped only when BOTH of its endpoints are in front of
the near clipping plane; otherwise both endpoints are projected. -/
def explEdgeVisible (e : EXPL) (i : Fin NUM_TIE_EDGES) : Bool :=
  ¬((e.p1 i).z < (NEAR_Z : ℚ) ∧ (e.p2 i).z < (NEAR_Z : ℚ))

/-- The perspective transform of one explosion edge endpoint
(lines 459-462): the coordinates are divided by the endpoint depth. -/
def explProject (p : POINT3D) : ℚ × ℚ :=
  ((VIEW_DISTANCE : ℚ) * p.x / p.z, (VIEW_DISTANCE : ℚ) * p.y / p.z)

/-! ## Starfield (lines 481-531) -/

/-- One star of `Move_Starfield` (lines 488-496): depth decreases by the
player virtual z velocity; once at or past the near plane it is recycled to
the far plane.  x, y and color are untouched. -/
def moveStar (pzv : Int) (s : POINT3D) : POINT3D :=
  if s.z - (pzv : ℚ) ≤ (NEAR_Z : ℚ) then { s with z := (FAR_Z : ℚ) }
  else { s with z := s.z - (pzv : ℚ) }

/-- `Move_Starfield` (lines 481-498). -/
def Move_Starfield (pzv : Int) (stars : List POINT3D) : List POINT3D :=
  stars.map (moveStar pzv)

/-- The perspective transform plus screen mapping of `Draw_Starfield`
(lines 512-517), before the int conversion: divide by the star depth and
re-center on the screen with the y axis inverted. -/
def starProject (s : POINT3D) : ℚ × ℚ :=
  (((WINDOW_WIDTH / 2 : Int) : ℚ) + (VIEW_DISTANCE : ℚ) * s.x / s.z,
   ((WINDOW_HEIGHT / 2 : Int) : ℚ) - (VIEW_DISTANCE : ℚ) * s.y / s.z)

/-- The integer screen coordinates a star is plotted at (`x_screen`,
`y_screen` of lines 516-517; C assigns the float sums to int variables,
truncating toward zero). -/
def starScreen (s : POINT3D) : Int × Int :=
  (ratTrunc (starProject s).1, ratTrunc (starProject s).2)

/-! ## Tie fighters (lines 537-690) -/

/-- `Init_Tie` (lines 537-553): respawn a tie at a random position at depth
`2*FAR_Z` with random velocity and mark it alive.  The five rand() calls
happen in source order x, y, xv, yv, zv, so they are stream values 0-4. -/
def Init_Tie (r : ℕ → ℕ) : TIE where
  state := 1
  x := -(WINDOW_WIDTH : ℚ) + ((r 0 % (2 * WINDOW_WIDTH).toNat : ℕ) : ℚ)
  y := -(WINDOW_HEIGHT : ℚ) + ((r 1 % (2 * WINDOW_HEIGHT).toNat : ℕ) : ℚ)
  z := 2 * (FAR_Z : ℚ)
  xv := -4 + ((r 2 % 8 : ℕ) : ℚ)
  yv := -4 + ((r 3 % 8 : ℕ) : ℚ)
  zv := -8 - ((r 4 % 64 : ℕ) : ℚ)

/-- `Init_Tie` called on pool slot `i` (the source writes `ties[index]`). -/
def Init_Tie_at (ties : List TIE) (i : ℕ) (r : ℕ → ℕ) : List TIE :=
  ties.set i (Init_Tie r)

/-- `Process_Ties` (lines 559-585): every non-dead tie moves by its velocity;
one that reaches the near clipping plane is respawned with `Init_Tie` and the
miss counter (an int8_t) is incremented.  Returns the new pool, the new miss
counter and the number of random values consumed (5 per respawn, in pool
order). -/
def Process_Ties : (ℕ → ℕ) → Int → List TIE → List TIE × Int × ℕ
  | _, m, [] => ([], m, 0)
  | r, m, t :: rest =>
    if t.state = 0 then
      (t :: (Process_Ties r m rest).1, (Process_Ties r m rest).2)
    else
      let t2 := { t with z := t.z + t.zv, x := t.x + t.xv, y := t.y + t.yv }
      if t2.z ≤ (NEAR_Z : ℚ) then
        (Init_Tie r :: (Process_Ties (shift r 5) (int8wrap (m + 1)) rest).1,
         (Process_Ties (shift r 5) (int8wrap (m + 1)) rest).2.1,
         (Process_Ties (shift r 5) (int8wrap (m + 1)) rest).2.2 + 5)
      else
        (t2 :: (Process_Ties r m rest).1, (Process_Ties r m rest).2)

/-- Screen coordinates of one model vertex of a tie, as computed inside the
edge loop of `Draw_Ties` (lines 632-649): the local vertex is translated by
the tie position, perspective-divided by the translated depth, mapped to the
screen center with y inverted, and truncated to int. -/
def tieVertexScreen (t : TIE) (v : Fin NUM_TIE_VERTS) : Int × Int :=
  (ratTrunc (((WINDOW_WIDTH / 2 : Int) : ℚ) +
      (VIEW_DISTANCE : ℚ) * (t.x + (tie_vlist v).x) / ((tie_vlist v).z + t.z)),
   ratTrunc (((WINDOW_HEIGHT / 2 : Int) : ℚ) -
      (VIEW_DISTANCE : ℚ) * (t.y + (tie_vlist v).y) / ((tie_vlist v).z + t.z)))

/-- The screen-space bounding box `(bmin_x, bmax_x, bmin_y, bmax_y)` that
`Draw_Ties` accumulates over the projected endpoints of all edges
(lines 610-665), starting from the impossible values 4000 / -4000. -/
def tieBBox (t : TIE) : Int × Int × Int × Int :=
  (List.finRange NUM_TIE_EDGES).foldl
    (fun acc e =>
      let p1 := tieVertexScreen t (tie_shape e).v1
      let p2 := tieVertexScreen t (tie_shape e).v2
      (min acc.1 (min p1.1 p2.1), max acc.2.1 (max p1.1 p2.1),
       min acc.2.2.1 (min p1.2 p2.2), max acc.2.2.2 (max p1.2 p2.2)))
    (4000, -4000, 4000, -4000)

/-- The laser hit test of `Draw_Ties` (lines 669-672): the cannon must be in
its firing state and the latched target must lie strictly inside the
accumulated bounding box. -/
def tieHit (cs tx ty : Int) (t : TIE) : Bool :=
  let (bminx, bmaxx, bminy, bmaxy) := tieBBox t
  cs = 1 ∧ tx > bminx ∧ tx < bmaxx ∧ ty > bminy ∧ ty < bmaxy

/-- The global side effects of `Draw_Ties` (explosion pool, score, hit
counter). -/
structure HitState where
  explosions : List EXPL
  score : Int
  hits : Int
deriving DecidableEq

/-- State-relevant part of `Draw_Ties` (lines 591-690): each live tie is
projected (accumulating its bounding box); when the cannon is firing and the
latched target is inside the box, the tie triggers an explosion, adds its
depth to the score (an int16_t), increments the hit counter (an int8_t) and
is respawned with `Init_Tie`.  Returns the new tie pool, the new side
effects, and the number of random values consumed. -/
def Draw_Ties (r : ℕ → ℕ) (cs tx ty : Int) : List TIE → HitState → List TIE × HitState × ℕ
  | [], h => ([], h, 0)
  | t :: rest, h =>
    if t.state = 0 then
      (t :: (Draw_Ties r cs tx ty rest h).1, (Draw_Ties r cs tx ty rest h).2)
    else if tieHit cs tx ty t then
      let c1 := (Start_Explosion h.explosions t r).2
      let h2 : HitState :=
        ⟨(Start_Explosion h.explosions t r).1,
         int16wrap (h.score + ratTrunc t.z), int8wrap (h.hits + 1)⟩
      (Init_Tie (shift r c1) :: (Draw_Ties (shift r (c1 + 5)) cs tx ty rest h2).1,
       (Draw_Ties (shift r (c1 + 5)) cs tx ty rest h2).2.1,
       (Draw_Ties (shift r (c1 + 5)) cs tx ty rest h2).2.2 + c1 + 5)
    else
      (t :: (Draw_Ties r cs tx ty rest h).1, (Draw_Ties r cs tx ty rest h).2)

/-! ## Cannon state machine (lines 758-785 of Game_Main) -/

/-- Cannon state plus the latched target (the globals cannon_state,
cannon_count, target_x_screen, target_y_screen). -/
structure CannonSt where
  state : Int
  count : Int
  tx : Int
  ty : Int
deriving DecidableEq

/-- The fire test of Game_Main (lines 758-767): with the button pressed and
the cannon ready (state 0), start firing, reset the shot counter and latch
the current crosshair screen position as the target; in every other state
the input has no effect. -/
def fireLatch (fire : Bool) (cxs cys : Int) (c : CannonSt) : CannonSt :=
  if fire ∧ c.state = 0 then ⟨1, 0, cxs, cys⟩ else c

/-- The cannon FSM update of Game_Main (lines 771-785): in the firing state
the counter (an int8_t) is pre-incremented and past 10 the state becomes
cooldown; then — in the same frame, since the source uses two consecutive
ifs — a cooldown state pre-increments the counter again and past 15 returns
to ready.  The counter is not reset on the firing-to-cooldown transition. -/
def cannonFSM (cs cc : Int) : Int × Int :=
  let fir := if cs = 1 then
      (let c := int8wrap (cc + 1); if c > 10 then ((2 : Int), c) else ((1 : Int), c))
    else (cs, cc)
  if fir.1 = 2 then
    (let c := int8wrap (fir.2 + 1); if c > 15 then ((0 : Int), c) else ((2 : Int), c))
  else fir

/-- One frame of the cannon subsystem: the fire test followed by the FSM
update, exactly as the two appear in sequence inside Game_Main. -/
def cannonStep (fire : Bool) (cxs cys : Int) (c : CannonSt) : CannonSt :=
  let c2 := fireLatch fire cxs cys c
  let p := cannonFSM c2.state c2.count
  ⟨p.1, p.2, c2.tx, c2.ty⟩

/-- The cannon subsystem iterated over frames, with per-frame fire input and
crosshair screen position. -/
def cannonRun (fire : ℕ → Bool) (cxs cys : ℕ → Int) (c0 : CannonSt) : ℕ → CannonSt
  | 0 => c0
  | n + 1 => cannonStep (fire n) (cxs n) (cys n) (cannonRun fire cxs cys c0 n)

/-! ## Input, frame orchestration (Game_Main, lines 696-850) -/

/-- The seven buttons (true = pressed; the source reads the pins active-low,
`!digitalRead(pin)`). -/
structure BUTTONS where
  right : Bool
  left : Bool
  up : Bool
  down : Bool
  fire : Bool
  fast : Bool
  slow : Bool
deriving DecidableEq

/-- Horizontal crosshair movement (lines 713-729): right has priority over
left (else-if); a step past +WINDOW_WIDTH/2 wraps to -WINDOW_WIDTH/2 and
symmetrically. -/
def crossStepX (right left : Bool) (cx : ℚ) : ℚ :=
  if right then
    let c2 := cx + (CROSS_VEL : ℚ)
    if c2 > ((WINDOW_WIDTH / 2 : Int) : ℚ) then -((WINDOW_WIDTH / 2 : Int) : ℚ) else c2
  else if left then
    let c2 := cx - (CROSS_VEL : ℚ)
    if c2 < -((WINDOW_WIDTH / 2 : Int) : ℚ) then ((WINDOW_WIDTH / 2 : Int) : ℚ) else c2
  else cx

/-- Vertical crosshair movement (lines 731-747): the down button is tested
first and decreases the offset; wraparound at plus or minus half the screen
height. -/
def crossStepY (down up : Bool) (cy : ℚ) : ℚ :=
  if down then
    let c2 := cy - (CROSS_VEL : ℚ)
    if c2 < -((WINDOW_HEIGHT / 2 : Int) : ℚ) then ((WINDOW_HEIGHT / 2 : Int) : ℚ) else c2
  else if up then
    let c2 := cy + (CROSS_VEL : ℚ)
    if c2 > ((WINDOW_HEIGHT / 2 : Int) : ℚ) then -((WINDOW_HEIGHT / 2 : Int) : ℚ) else c2
  else cy

/-- The whole mutable global state of the game. -/
structure GameState where
  cross_x : ℚ
  cross_y : ℚ
  cross_x_screen : Int
  cross_y_screen : Int
  target_x_screen : Int
  target_y_screen : Int
  player_z_vel : Int
  cannon_state : Int
  cannon_count : Int
  misses : Int
  hits : Int
  score : Int
  game_state : Int
  stars : List POINT3D
  ties : List TIE
  explosions : List EXPL
deriving DecidableEq

/-- The input-handling block of Game_Main (lines 713-767), executed only
while the game is running: crosshair movement with wraparound, speed
adjustment of the player z velocity (an int8_t), and the cannon fire test
that latches the target. -/
def inputPhase (b : BUTTONS) (s : GameState) : GameState :=
  let cx := crossStepX b.right b.left s.cross_x
  let cy := crossStepY b.down b.up s.cross_y
  let pzv := if b.fast then int8wrap (s.player_z_vel + 1)
             else if b.slow then int8wrap (s.player_z_vel - 1)
             else s.player_z_vel
  if b.fire ∧ s.cannon_state = 0 then
    { s with cross_x := cx, cross_y := cy, player_z_vel := pzv,
             cannon_state := 1, cannon_count := 0,
             target_x_screen := s.cross_x_screen,
             target_y_screen := s.cross_y_screen }
  else
    { s with cross_x := cx, cross_y := cy, player_z_vel := pzv }

/-- Everything Game_Main does after the input block (lines 771-849): cannon
FSM, starfield motion, tie motion with miss counting, explosion aging, the
hit-test side of tie drawing, the crosshair screen-coordinate update
(lines 809-810), and the final game-over check on the miss counter.  The
random stream is consumed first by `Process_Ties` and then by `Draw_Ties`,
matching rand() call order; later rand() calls (laser beam jitter) influence
no game state. -/
def framePost (r : ℕ → ℕ) (s : GameState) : GameState :=
  let cp := cannonFSM s.cannon_state s.cannon_count
  let stars2 := Move_Starfield s.player_z_vel s.stars
  let pt := Process_Ties r s.misses s.ties
  let expl2 := Process_Explosions s.explosions
  let dt := Draw_Ties (shift r pt.2.2) cp.1 s.target_x_screen s.target_y_screen
              pt.1 ⟨expl2, s.score, s.hits⟩
  let cxs := ratTrunc (((WINDOW_WIDTH / 2 : Int) : ℚ) + s.cross_x)
  let cys := ratTrunc (((WINDOW_HEIGHT / 2 : Int) : ℚ) - s.cross_y)
  { s with cannon_state := cp.1, cannon_count := cp.2,
           stars := stars2, ties := dt.1, misses := pt.2.1,
           explosions := dt.2.1.explosions, score := dt.2.1.score,
           hits := dt.2.1.hits,
           cross_x_screen := cxs, cross_y_screen := cys,
           game_state := if pt.2.1 > TIES_MISSED_END_GAME then GAME_OVER
                         else s.game_state }

/-- One whole frame of Game_Main: the input block runs only when the game
state is GAME_RUNNING (line 711); everything else runs unconditionally. -/
def frameStep (b : BUTTONS) (r : ℕ → ℕ) (s : GameState) : GameState :=
  framePost r (if s.game_state = GAME_RUNNING then inputPhase b s else s)

/-- Projection as the specification words it: `perspX = viewDistance *
worldX / worldZ`, `perspY = viewDistance * worldY / worldZ`, `screenX =
width/2 + perspX`, `screenY = height/2 - perspY`.  Written from the spec
text, to be compared with `starProject`, which is written from the source. -/
def projectSpec (wx wy wz v : ℚ) : ℚ × ℚ :=
  (((WINDOW_WIDTH / 2 : Int) : ℚ) + v * wx / wz,
   ((WINDOW_HEIGHT / 2 : Int) : ℚ) - v * wy / wz)

/-! ## Concrete example data used to exercise the theorems -/

/-- No button pressed. -/
def exButtons : BUTTONS := ⟨false, false, false, false, false, false, false⟩

/-- Every button pressed. -/
def exButtonsAll : BUTTONS := ⟨true, true, true, true, true, true, true⟩

/-- A minimal running game state. -/
def exGS : GameState :=
  ⟨0, 0, 64, 80, 64, 80, 8, 0, 0, 0, 0, 0, GAME_RUNNING, [], [], []⟩

/-- A minimal game-over state: 20 misses, one live tie about to advance. -/
def exGSover : GameState :=
  ⟨0, 0, 64, 80, 64, 80, 8, 0, 0, 20, 0, 0, GAME_OVER, [⟨7, 3, 4, 500⟩],
    [⟨1, 0, 0, 2000, 1, 1, -30⟩], []⟩

/-- A live tie dead center at depth 64 (where the perspective divide is by
exactly the view distance, so every projected coordinate is an integer). -/
def exTie : TIE := ⟨1, 0, 0, 64, 0, 0, -8⟩

/-- An active explosion slot (pool fully busy). -/
def exExplActive : EXPL :=
  ⟨1, 5, 0, fun _ => ⟨0, 0, 0, 500⟩, fun _ => ⟨0, 0, 0, 500⟩, fun _ => ⟨0, 0, -7⟩⟩

/-- An active explosion whose edges sit at depth exactly NEAR_Z. -/
def exExplAtNear : EXPL :=
  ⟨1, 50, 0, fun _ => ⟨0, 20, 0, (NEAR_Z : ℚ)⟩, fun _ => ⟨0, 0, 20, (NEAR_Z : ℚ)⟩,
    fun _ => ⟨0, 0, -7⟩⟩

/-- The cannon subsystem run from ready with the fire button pressed at tick
0 only. -/
def cannonRunEx : ℕ → CannonSt :=
  cannonRun (fun n => n == 0) (fun _ => 64) (fun _ => 80) ⟨0, 0, 64, 80⟩

/-! # Theorems -/

/-! ## General-purpose lemmas -/

/-- Adding a number shifted left by `n` bits to a number below `2^n` is the
same as a bitwise or: the two summands occupy disjoint bits. -/
theorem lor_eq_add_of_lt_shift (n x y : ℕ) (h : x < 2 ^ n) :
    x ||| y <<< n = x + y <<< n := by
  apply Nat.eq_of_testBit_eq
  intro i
  rw [Nat.testBit_lor]
  by_cases hi : i < n
  · have hsh : (y <<< n).testBit i = false := by
      rw [Nat.testBit_shiftLeft]
      simp [Nat.not_le.mpr hi]
    have hadd : (x + y <<< n).testBit i = x.testBit i := by
      rw [Nat.testBit_to_div_mod, Nat.testBit_to_div_mod]
      have e1 : y <<< n = 2 ^ i * (2 * (2 ^ (n - i - 1) * y)) := by
        obtain ⟨m, hm, hm2⟩ : ∃ m, n = i + 1 + m ∧ m = n - i - 1 :=
          ⟨n - i - 1, by omega, rfl⟩
        rw [← hm2, Nat.shiftLeft_eq, hm, pow_add, pow_add]
        ring
      rw [e1, Nat.add_mul_div_left _ _ (Nat.pos_pow_of_pos i (by norm_num)),
        Nat.add_mul_mod_self_left]
    rw [hadd, hsh, Bool.or_false]
  · push_neg at hi
    have hx : x.testBit i = false :=
      Nat.testBit_lt_two_pow (lt_of_lt_of_le h (Nat.pow_le_pow_right (by norm_num) hi))
    have hadd : (x + y <<< n).testBit i = (y <<< n).testBit i := by
      rw [Nat.testBit_to_div_mod, Nat.testBit_to_div_mod]
      have e2 : (2 : ℕ) ^ i = 2 ^ n * 2 ^ (i - n) := by
        rw [← pow_add]; congr 1; omega
      have d1 : (x + y <<< n) / 2 ^ i = y / 2 ^ (i - n) := by
        rw [e2, ← Nat.div_div_eq_div_mul, Nat.shiftLeft_eq, mul_comm y (2 ^ n),
          Nat.add_mul_div_left _ _ (Nat.pos_pow_of_pos n (by norm_num)),
          Nat.div_eq_of_lt h, Nat.zero_add]
      have d2 : (y <<< n) / 2 ^ i = y / 2 ^ (i - n) := by
        rw [e2, ← Nat.div_div_eq_div_mul, Nat.shiftLeft_eq, mul_comm y (2 ^ n),
          Nat.mul_div_cancel_left _ (Nat.pos_pow_of_pos n (by norm_num))]
      rw [d1, d2]
    rw [hadd, hx, Bool.false_or]

/-! ## Claim C9 — 5-6-5 color packing -/

/-- C9: for all 8-bit channel values, `RGB16Bit` — which adds the three
shifted fields and converts to uint16_t — equals the exact 5-6-5 or-packing
`(b >> 3) ||| ((g >> 2) << 5) ||| ((r >> 3) << 11)`: the shifted fields
occupy disjoint bits, so + and | agree, and the sum fits in 16 bits, so the
uint16_t conversion drops nothing. -/
theorem claim_C9_rgb565_packing (r g b : ℕ) (hr : r < 256) (hg : g < 256) (hb : b < 256) :
    RGB16Bit r g b = (b >>> 3) ||| ((g >>> 2) <<< 5) ||| ((r >>> 3) <<< 11) := by
  have hb5 : b >>> 3 < 2 ^ 5 := by
    rw [Nat.shiftRight_eq_div_pow]; norm_num; omega
  have hg6 : g >>> 2 < 64 := by
    rw [Nat.shiftRight_eq_div_pow]; omega
  have hr5 : r >>> 3 < 32 := by
    rw [Nat.shiftRight_eq_div_pow]; omega
  have hmid : b >>> 3 + (g >>> 2) <<< 5 < 2 ^ 11 := by
    rw [Nat.shiftLeft_eq]; norm_num at hb5 ⊢; omega
  have hall : b >>> 3 + (g >>> 2) <<< 5 + (r >>> 3) <<< 11 < 65536 := by
    rw [Nat.shiftLeft_eq]
    norm_num at hmid ⊢
    omega
  rw [RGB16Bit, Nat.mod_eq_of_lt hall, lor_eq_add_of_lt_shift 5 _ _ hb5,
    lor_eq_add_of_lt_shift 11 _ _ hmid]

/-- Witness for C9 at concrete channel values. -/
theorem claim_C9_witness :
    RGB16Bit 13 200 77 = (77 >>> 3) ||| ((200 >>> 2) <<< 5) ||| ((13 >>> 3) <<< 11) :=
  claim_C9_rgb565_packing 13 200 77 (by norm_num) (by norm_num) (by norm_num)

/-! ## Claim C7 — perspective projection -/

/-- C7: the star projection of the source computes exactly the spec formula
`(width/2 + V*x/z, height/2 - V*y/z)` with the y axis inverted, and the
world point (0, 0, 100) with view distance 64 on the 128x160 screen lands
exactly at screen pixel (64, 80). -/
theorem claim_C7_projection :
    (∀ p : POINT3D, starProject p = projectSpec p.x p.y p.z (VIEW_DISTANCE : ℚ)) ∧
    starProject ⟨rgb_white, 0, 0, 100⟩ = (64, 80) ∧
    starScreen ⟨rgb_white, 0, 0, 100⟩ = (64, 80) := by
  have h2 : starProject ⟨rgb_white, 0, 0, 100⟩ = (64, 80) := by
    norm_num [starProject, WINDOW_WIDTH, WINDOW_HEIGHT, VIEW_DISTANCE]
  refine ⟨fun p => rfl, h2, ?_⟩
  simp only [starScreen, h2]
  norm_num [ratTrunc]

/-! ## Claim C4 — star recycling -/

/-- C4: a starfield move step never drops a star and never changes x, y or
color; whenever the step would take the depth to at or below the near
clipping plane the depth is reset exactly to the far clipping plane, and
otherwise the depth just decreases by the player z velocity. -/
theorem claim_C4_star_recycling (pzv : Int) (stars : List POINT3D) (i : ℕ)
    (st : POINT3D) (hget : stars[i]? = some st) :
    (Move_Starfield pzv stars).length = stars.length ∧
    (Move_Starfield pzv stars)[i]? = some (moveStar pzv st) ∧
    (moveStar pzv st).x = st.x ∧ (moveStar pzv st).y = st.y ∧
    (moveStar pzv st).color = st.color ∧
    (st.z - (pzv : ℚ) ≤ (NEAR_Z : ℚ) → (moveStar pzv st).z = (FAR_Z : ℚ)) ∧
    ((NEAR_Z : ℚ) < st.z - (pzv : ℚ) → (moveStar pzv st).z = st.z - (pzv : ℚ)) := by
  refine ⟨by simp [Move_Starfield], by simp [Move_Starfield, hget], ?_, ?_, ?_, ?_, ?_⟩
  · simp only [moveStar]; split <;> rfl
  · simp only [moveStar]; split <;> rfl
  · simp only [moveStar]; split <;> rfl
  · intro h; simp only [moveStar, if_pos h]
  · intro h; simp only [moveStar, if_neg (by linarith : ¬st.z - (pzv : ℚ) ≤ (NEAR_Z : ℚ))]

/-- Witness for C4: a star at depth 15 moved at player z velocity 8 crosses
the near plane and is recycled to depth 1000 with x, y, color intact. -/
theorem claim_C4_witness :
    (Move_Starfield 8 [⟨7, 3, 4, 15⟩]).length = 1 ∧
    (Move_Starfield 8 [⟨7, 3, 4, 15⟩])[0]? = some (moveStar 8 ⟨7, 3, 4, 15⟩) ∧
    (moveStar 8 ⟨7, 3, 4, 15⟩).x = 3 ∧ (moveStar 8 ⟨7, 3, 4, 15⟩).y = 4 ∧
    (moveStar 8 ⟨7, 3, 4, 15⟩).color = 7 ∧
    (moveStar 8 ⟨7, 3, 4, 15⟩).z = (FAR_Z : ℚ) := by
  obtain ⟨h1, h2, h3, h4, h5, h6, -⟩ :=
    claim_C4_star_recycling 8 [⟨7, 3, 4, 15⟩] 0 ⟨7, 3, 4, 15⟩ rfl
  exact ⟨h1, h2, h3, h4, h5, h6 (by norm_num [NEAR_Z])⟩

/-! ## Claim C5 — tie respawn -/

/-- C5: respawning the tie at any occupied pool index, from any prior state,
stores `Init_Tie` there, whose depth is exactly twice the far clipping
plane, whose state is alive, whose lateral velocities lie in the small
symmetric range [-4, 4] (the source draws them from [-4, 3]), and whose
depth velocity is strictly negative. -/
theorem claim_C5_tie_respawn (ties : List TIE) (i : ℕ) (r : ℕ → ℕ) (prior : TIE)
    (hget : ties[i]? = some prior) :
    (Init_Tie_at ties i r)[i]? = some (Init_Tie r) ∧
    (Init_Tie r).z = 2 * (FAR_Z : ℚ) ∧
    (Init_Tie r).state = 1 ∧
    (-4 ≤ (Init_Tie r).xv ∧ (Init_Tie r).xv ≤ 4) ∧
    (-4 ≤ (Init_Tie r).yv ∧ (Init_Tie r).yv ≤ 4) ∧
    (Init_Tie r).zv < 0 := by
  have hlen : i < ties.length := by
    by_contra hc
    rw [List.getElem?_eq_none (by omega)] at hget
    exact Option.noConfusion hget
  have bound8 : ∀ k : ℕ, ((k % 8 : ℕ) : ℚ) ≤ 7 := fun k => by
    have hk : k % 8 < 8 := Nat.mod_lt k (by norm_num)
    exact_mod_cast Nat.le_of_lt_succ hk
  have pos8 : ∀ k : ℕ, (0 : ℚ) ≤ ((k % 8 : ℕ) : ℚ) := fun k => Nat.cast_nonneg _
  have pos64 : (0 : ℚ) ≤ ((r 4 % 64 : ℕ) : ℚ) := Nat.cast_nonneg _
  refine ⟨List.getElem?_set_self hlen, rfl, rfl, ⟨?_, ?_⟩, ⟨?_, ?_⟩, ?_⟩
  · show (-4 : ℚ) ≤ -4 + ((r 2 % 8 : ℕ) : ℚ)
    linarith [pos8 (r 2)]
  · show -4 + ((r 2 % 8 : ℕ) : ℚ) ≤ 4
    linarith [bound8 (r 2)]
  · show (-4 : ℚ) ≤ -4 + ((r 3 % 8 : ℕ) : ℚ)
    linarith [pos8 (r 3)]
  · show -4 + ((r 3 % 8 : ℕ) : ℚ) ≤ 4
    linarith [bound8 (r 3)]
  · show -8 - ((r 4 % 64 : ℕ) : ℚ) < 0
    linarith [pos64]

/-- Witness for C5 on a one-element pool with a dead prior tie. -/
theorem claim_C5_witness :
    (Init_Tie_at [⟨0, 1, 2, 3, 4, 5, 6⟩] 0 (fun i => i * 37))[0]? =
      some (Init_Tie (fun i => i * 37)) ∧
    (Init_Tie (fun i => i * 37)).z = 2 * (FAR_Z : ℚ) ∧
    (Init_Tie (fun i => i * 37)).state = 1 ∧
    (Init_Tie (fun i => i * 37)).zv < 0 := by
  obtain ⟨h1, h2, h3, -, -, h6⟩ :=
    claim_C5_tie_respawn [⟨0, 1, 2, 3, 4, 5, 6⟩] 0 (fun i => i * 37) ⟨0, 1, 2, 3, 4, 5, 6⟩ rfl
  exact ⟨h1, h2, h3, h6⟩

/-! ## Small helper lemmas about the embedding -/

theorem ratTrunc_intCast (n : ℤ) : ratTrunc (n : ℚ) = n := by
  simp [ratTrunc, Rat.num_intCast, Rat.den_intCast]

theorem ratTrunc_eq (q : ℚ) (n : ℤ) (h : q = (n : ℚ)) : ratTrunc q = n := by
  rw [h, ratTrunc_intCast]

theorem shift_zero (r : ℕ → ℕ) : shift r 0 = r := funext fun i => by simp [shift]

theorem tieVertexScreen_eq (t : TIE) (v : Fin NUM_TIE_VERTS) (a b : ℤ)
    (h1 : ((WINDOW_WIDTH / 2 : Int) : ℚ) +
      (VIEW_DISTANCE : ℚ) * (t.x + (tie_vlist v).x) / ((tie_vlist v).z + t.z) = (a : ℚ))
    (h2 : ((WINDOW_HEIGHT / 2 : Int) : ℚ) -
      (VIEW_DISTANCE : ℚ) * (t.y + (tie_vlist v).y) / ((tie_vlist v).z + t.z) = (b : ℚ)) :
    tieVertexScreen t v = (a, b) := by
  rw [tieVertexScreen, ratTrunc_eq _ a h1, ratTrunc_eq _ b h2]

theorem inputPhase_game_state (b : BUTTONS) (s : GameState) :
    (inputPhase b s).game_state = s.game_state := by
  simp only [inputPhase]; split <;> rfl

theorem inputPhase_cross_x (b : BUTTONS) (s : GameState) :
    (inputPhase b s).cross_x = crossStepX b.right b.left s.cross_x := by
  simp only [inputPhase]; split <;> rfl

theorem inputPhase_cross_y (b : BUTTONS) (s : GameState) :
    (inputPhase b s).cross_y = crossStepY b.down b.up s.cross_y := by
  simp only [inputPhase]; split <;> rfl

theorem framePost_game_state (r : ℕ → ℕ) (s : GameState) :
    (framePost r s).game_state =
      if (framePost r s).misses > TIES_MISSED_END_GAME then GAME_OVER
      else s.game_state := rfl

/-! ## Claim C8 — crosshair wraparound -/

/-- C8: whenever a crosshair step would take the offset past plus half the
screen size, the offset is set exactly to minus half the screen size, and
symmetrically in the three other directions (wraparound, not clamping); and
while the game is running a frame applies exactly these step functions to
the crosshair offsets. -/
theorem claim_C8_crosshair_wrap (cx cy : ℚ) (l u : Bool) (b : BUTTONS)
    (r : ℕ → ℕ) (s : GameState) :
    (cx + (CROSS_VEL : ℚ) > ((WINDOW_WIDTH / 2 : Int) : ℚ) →
      crossStepX true l cx = -((WINDOW_WIDTH / 2 : Int) : ℚ)) ∧
    (cx - (CROSS_VEL : ℚ) < -((WINDOW_WIDTH / 2 : Int) : ℚ) →
      crossStepX false true cx = ((WINDOW_WIDTH / 2 : Int) : ℚ)) ∧
    (cy - (CROSS_VEL : ℚ) < -((WINDOW_HEIGHT / 2 : Int) : ℚ) →
      crossStepY true u cy = ((WINDOW_HEIGHT / 2 : Int) : ℚ)) ∧
    (cy + (CROSS_VEL : ℚ) > ((WINDOW_HEIGHT / 2 : Int) : ℚ) →
      crossStepY false true cy = -((WINDOW_HEIGHT / 2 : Int) : ℚ)) ∧
    (s.game_state = GAME_RUNNING →
      (frameStep b r s).cross_x = crossStepX b.right b.left s.cross_x ∧
      (frameStep b r s).cross_y = crossStepY b.down b.up s.cross_y) := by
  refine ⟨?_, ?_, ?_, ?_, ?_⟩
  · intro h; simp [crossStepX, h]
  · intro h; simp [crossStepX, h]
  · intro h; simp [crossStepY, h]
  · intro h; simp [crossStepY, h]
  · intro h
    have hf : frameStep b r s = framePost r (inputPhase b s) := by
      simp only [frameStep, if_pos h]
    rw [hf]
    exact ⟨inputPhase_cross_x b s, inputPhase_cross_y b s⟩

/-- Witness for C8: a crosshair offset one step short of each bound wraps to
the opposite bound. -/
theorem claim_C8_witness :
    crossStepX true false 62 = -((WINDOW_WIDTH / 2 : Int) : ℚ) ∧
    crossStepX false true (-62) = ((WINDOW_WIDTH / 2 : Int) : ℚ) ∧
    crossStepY true false (-78) = ((WINDOW_HEIGHT / 2 : Int) : ℚ) ∧
    crossStepY false true 78 = -((WINDOW_HEIGHT / 2 : Int) : ℚ) ∧
    (frameStep exButtons (fun _ => 0) exGS).cross_x =
      crossStepX false false exGS.cross_x := by
  refine ⟨?_, ?_, ?_, ?_, ?_⟩
  · exact (claim_C8_crosshair_wrap 62 0 false false exButtons (fun _ => 0) exGS).1
      (by norm_num [CROSS_VEL, WINDOW_WIDTH])
  · exact (claim_C8_crosshair_wrap (-62) 0 true false exButtons (fun _ => 0) exGS).2.1
      (by norm_num [CROSS_VEL, WINDOW_WIDTH])
  · exact (claim_C8_crosshair_wrap 0 (-78) false false exButtons (fun _ => 0) exGS).2.2.1
      (by norm_num [CROSS_VEL, WINDOW_HEIGHT])
  · exact (claim_C8_crosshair_wrap 0 78 false true exButtons (fun _ => 0) exGS).2.2.2.1
      (by norm_num [CROSS_VEL, WINDOW_HEIGHT])
  · exact ((claim_C8_crosshair_wrap 0 0 false false exButtons (fun _ => 0) exGS).2.2.2.2
      rfl).1

/-! ## Claim C1 — cannon state machine -/

theorem cannonStep_ready_fire (a b k tx ty : Int) :
    cannonStep true a b ⟨0, k, tx, ty⟩ = ⟨1, 1, a, b⟩ := by
  simp only [cannonStep, fireLatch, cannonFSM, int8wrap]
  norm_num

theorem cannonStep_ready_nofire (a b k tx ty : Int) :
    cannonStep false a b ⟨0, k, tx, ty⟩ = ⟨0, k, tx, ty⟩ := by
  simp [cannonStep, fireLatch, cannonFSM]

theorem cannonStep_firing (f : Bool) (a b k tx ty : Int) :
    cannonStep f a b ⟨1, k, tx, ty⟩ =
      if int8wrap (k + 1) > 10 then
        (if int8wrap (int8wrap (k + 1) + 1) > 15 then
          ⟨0, int8wrap (int8wrap (k + 1) + 1), tx, ty⟩
        else ⟨2, int8wrap (int8wrap (k + 1) + 1), tx, ty⟩)
      else ⟨1, int8wrap (k + 1), tx, ty⟩ := by
  simp only [cannonStep, fireLatch, cannonFSM]
  norm_num
  split_ifs <;> simp_all

theorem cannonStep_cooldown (f : Bool) (a b k tx ty : Int) :
    cannonStep f a b ⟨2, k, tx, ty⟩ =
      if int8wrap (k + 1) > 15 then ⟨0, int8wrap (k + 1), tx, ty⟩
      else ⟨2, int8wrap (k + 1), tx, ty⟩ := by
  simp only [cannonStep, fireLatch, cannonFSM]
  norm_num
  split_ifs <;> simp_all

/-- C1 counterexample: firing at tick 0 from ready, the cannon spends 10
ticks in the firing state but only 4 ticks in the cooldown state — the
source never resets cannon_count at the firing-to-cooldown transition, so
the cooldown tick count is NOT longer than the firing tick count, contrary
to the claim. -/
theorem claim_C1_counterexample :
    (List.range 16).countP (fun n => (cannonRunEx n).state == 1) = 10 ∧
    (List.range 16).countP (fun n => (cannonRunEx n).state == 2) = 4 ∧
    ¬((List.range 16).countP (fun n => (cannonRunEx n).state == 2) >
      (List.range 16).countP (fun n => (cannonRunEx n).state == 1)) := by
  refine ⟨?_, ?_, ?_⟩ <;> decide

/-- C1 (amended): the cannon follows exactly the cycle ready, firing,
cooldown, ready: from ready it enters firing only when fire input is
asserted, latching the crosshair position as the target; firing holds for
10 ticks; cooldown then holds for 4 further ticks (SHORTER than firing,
because the tick counter is not reset at the firing-to-cooldown transition
and the cooldown bound of 15 is compared against the running counter);
afterwards the state is ready again; and fire input is never honored in a
state other than ready. -/
theorem claim_C1_cannon_cycle (fire : ℕ → Bool) (cxs cys : ℕ → Int)
    (k tx ty : Int) (hfire : fire 0 = true) :
    (∀ (f : Bool) (a b : Int) (c : CannonSt), c.state ≠ 0 → fireLatch f a b c = c) ∧
    (∀ a b : Int, cannonStep false a b ⟨0, k, tx, ty⟩ = ⟨0, k, tx, ty⟩) ∧
    (∀ a b : Int, cannonStep true a b ⟨0, k, tx, ty⟩ = ⟨1, 1, a, b⟩) ∧
    (∀ n, 1 ≤ n → n ≤ 10 →
      (cannonRun fire cxs cys ⟨0, k, tx, ty⟩ n).state = 1 ∧
      (cannonRun fire cxs cys ⟨0, k, tx, ty⟩ n).tx = cxs 0 ∧
      (cannonRun fire cxs cys ⟨0, k, tx, ty⟩ n).ty = cys 0) ∧
    (∀ n, 11 ≤ n → n ≤ 14 →
      (cannonRun fire cxs cys ⟨0, k, tx, ty⟩ n).state = 2 ∧
      (cannonRun fire cxs cys ⟨0, k, tx, ty⟩ n).tx = cxs 0 ∧
      (cannonRun fire cxs cys ⟨0, k, tx, ty⟩ n).ty = cys 0) ∧
    (cannonRun fire cxs cys ⟨0, k, tx, ty⟩ 15).state = 0 := by
  have hlatch : ∀ (f : Bool) (a b : Int) (c : CannonSt), c.state ≠ 0 →
      fireLatch f a b c = c := by
    intro f a b c hc
    simp only [fireLatch]
    rw [if_neg fun hcon => hc hcon.2]
  set R := cannonRun fire cxs cys ⟨0, k, tx, ty⟩ with hR
  have h1 : R 1 = ⟨1, 1, cxs 0, cys 0⟩ := by
    show cannonStep (fire 0) (cxs 0) (cys 0) ⟨0, k, tx, ty⟩ = _
    rw [hfire, cannonStep_ready_fire]
  have h2 : R 2 = ⟨1, 2, cxs 0, cys 0⟩ := by
    show cannonStep (fire 1) (cxs 1) (cys 1) (R 1) = _
    rw [h1, cannonStep_firing]; norm_num [int8wrap]
  have h3 : R 3 = ⟨1, 3, cxs 0, cys 0⟩ := by
    show cannonStep (fire 2) (cxs 2) (cys 2) (R 2) = _
    rw [h2, cannonStep_firing]; norm_num [int8wrap]
  have h4 : R 4 = ⟨1, 4, cxs 0, cys 0⟩ := by
    show cannonStep (fire 3) (cxs 3) (cys 3) (R 3) = _
    rw [h3, cannonStep_firing]; norm_num [int8wrap]
  have h5 : R 5 = ⟨1, 5, cxs 0, cys 0⟩ := by
    show cannonStep (fire 4) (cxs 4) (cys 4) (R 4) = _
    rw [h4, cannonStep_firing]; norm_num [int8wrap]
  have h6 : R 6 = ⟨1, 6, cxs 0, cys 0⟩ := by
    show cannonStep (fire 5) (cxs 5) (cys 5) (R 5) = _
    rw [h5, cannonStep_firing]; norm_num [int8wrap]
  have h7 : R 7 = ⟨1, 7, cxs 0, cys 0⟩ := by
    show cannonStep (fire 6) (cxs 6) (cys 6) (R 6) = _
    rw [h6, cannonStep_firing]; norm_num [int8wrap]
  have h8 : R 8 = ⟨1, 8, cxs 0, cys 0⟩ := by
    show cannonStep (fire 7) (cxs 7) (cys 7) (R 7) = _
    rw [h7, cannonStep_firing]; norm_num [int8wrap]
  have h9 : R 9 = ⟨1, 9, cxs 0, cys 0⟩ := by
    show cannonStep (fire 8) (cxs 8) (cys 8) (R 8) = _
    rw [h8, cannonStep_firing]; norm_num [int8wrap]
  have h10 : R 10 = ⟨1, 10, cxs 0, cys 0⟩ := by
    show cannonStep (fire 9) (cxs 9) (cys 9) (R 9) = _
    rw [h9, cannonStep_firing]; norm_num [int8wrap]
  have h11 : R 11 = ⟨2, 12, cxs 0, cys 0⟩ := by
    show cannonStep (fire 10) (cxs 10) (cys 10) (R 10) = _
    rw [h10, cannonStep_firing]; norm_num [int8wrap]
  have h12 : R 12 = ⟨2, 13, cxs 0, cys 0⟩ := by
    show cannonStep (fire 11) (cxs 11) (cys 11) (R 11) = _
    rw [h11, cannonStep_cooldown]; norm_num [int8wrap]
  have h13 : R 13 = ⟨2, 14, cxs 0, cys 0⟩ := by
    show cannonStep (fire 12) (cxs 12) (cys 12) (R 12) = _
    rw [h12, cannonStep_cooldown]; norm_num [int8wrap]
  have h14 : R 14 = ⟨2, 15, cxs 0, cys 0⟩ := by
    show cannonStep (fire 13) (cxs 13) (cys 13) (R 13) = _
    rw [h13, cannonStep_cooldown]; norm_num [int8wrap]
  have h15 : R 15 = ⟨0, 16, cxs 0, cys 0⟩ := by
    show cannonStep (fire 14) (cxs 14) (cys 14) (R 14) = _
    rw [h14, cannonStep_cooldown]; norm_num [int8wrap]
  refine ⟨hlatch, fun a b => cannonStep_ready_nofire a b k tx ty,
    fun a b => cannonStep_ready_fire a b k tx ty, ?_, ?_, by rw [h15]⟩
  · intro n hn1 hn10
    interval_cases n <;> simp [h1, h2, h3, h4, h5, h6, h7, h8, h9, h10]
  · intro n hn1 hn10
    interval_cases n <;> simp [h11, h12, h13, h14]

/-- Witness for C1 (amended) on the concrete trace with fire pressed at tick
0: firing at ticks 5 and 10, cooldown at tick 11, ready again at tick 15,
target latched from the crosshair. -/
theorem claim_C1_witness :
    (cannonRunEx 5).state = 1 ∧ (cannonRunEx 10).state = 1 ∧
    (cannonRunEx 11).state = 2 ∧ (cannonRunEx 11).tx = 64 ∧
    (cannonRunEx 15).state = 0 := by
  obtain ⟨-, -, -, hfir, hcool, hready⟩ :=
    claim_C1_cannon_cycle (fun n => n == 0) (fun _ => 64) (fun _ => 80) 0 64 80 rfl
  exact ⟨(hfir 5 (by norm_num) (by norm_num)).1, (hfir 10 (by norm_num) (by norm_num)).1,
    (hcool 11 (by norm_num) (by norm_num)).1, (hcool 11 (by norm_num) (by norm_num)).2.1,
    hready⟩

/-! ## Claim C3 — game over is entered once and is terminal -/

/-- C3: after a frame, the game-state flag reads over exactly when it was
already over or the frame left the miss counter above the configured
threshold; in particular a game that is over stays over on every subsequent
frame (there is no transition back to running), and a running game flips to
over on the first frame whose miss counter exceeds the threshold. -/
theorem claim_C3_game_over_terminal (b : BUTTONS) (r : ℕ → ℕ) (s : GameState) :
    ((frameStep b r s).game_state = GAME_OVER ↔
      (s.game_state = GAME_OVER ∨
        (frameStep b r s).misses > TIES_MISSED_END_GAME)) ∧
    (s.game_state = GAME_OVER → (frameStep b r s).game_state = GAME_OVER) := by
  have hs2 : (if s.game_state = GAME_RUNNING then inputPhase b s else s).game_state
      = s.game_state := by
    split
    · exact inputPhase_game_state b s
    · rfl
  have key : (frameStep b r s).game_state =
      if (frameStep b r s).misses > TIES_MISSED_END_GAME then GAME_OVER
      else s.game_state := by
    have h1 := framePost_game_state r
      (if s.game_state = GAME_RUNNING then inputPhase b s else s)
    rw [hs2] at h1
    exact h1
  constructor
  · rw [key]
    by_cases hm : (frameStep b r s).misses > TIES_MISSED_END_GAME
    · simp [hm]
    · simp [hm]
  · intro h
    rw [key]
    split
    · rfl
    · exact h

/-- Witness for C3: a frame stepped from the concrete game-over state is
still game over. -/
theorem claim_C3_witness :
    (frameStep exButtons (fun _ => 0) exGSover).game_state = GAME_OVER :=
  (claim_C3_game_over_terminal exButtons (fun _ => 0) exGSover).2 rfl

/-! ## Claim C10 — a game-over frame still runs the full simulation -/

/-- C10: in a game-over frame the input block alone is skipped — the frame
equals the post-input pipeline applied directly, so it is independent of the
buttons, and the crosshair offsets, player z velocity and latched target are
unchanged — while the simulation still runs in full: the stars move, the
ties are still processed (the miss counter keeps counting) and then
hit-tested by Draw_Ties against the latched target under the advanced cannon
state, and the explosions age. -/
theorem claim_C10_game_over_frame (b b2 : BUTTONS) (r : ℕ → ℕ) (s : GameState)
    (hover : s.game_state = GAME_OVER) :
    frameStep b r s = framePost r s ∧
    frameStep b r s = frameStep b2 r s ∧
    (frameStep b r s).cross_x = s.cross_x ∧
    (frameStep b r s).cross_y = s.cross_y ∧
    (frameStep b r s).player_z_vel = s.player_z_vel ∧
    (frameStep b r s).target_x_screen = s.target_x_screen ∧
    (frameStep b r s).target_y_screen = s.target_y_screen ∧
    (frameStep b r s).stars = Move_Starfield s.player_z_vel s.stars ∧
    ((frameStep b r s).cannon_state, (frameStep b r s).cannon_count) =
      cannonFSM s.cannon_state s.cannon_count ∧
    (frameStep b r s).misses = (Process_Ties r s.misses s.ties).2.1 ∧
    (frameStep b r s).ties =
      (Draw_Ties (shift r (Process_Ties r s.misses s.ties).2.2)
        (cannonFSM s.cannon_state s.cannon_count).1
        s.target_x_screen s.target_y_screen
        (Process_Ties r s.misses s.ties).1
        ⟨Process_Explosions s.explosions, s.score, s.hits⟩).1 ∧
    (frameStep b r s).explosions =
      (Draw_Ties (shift r (Process_Ties r s.misses s.ties).2.2)
        (cannonFSM s.cannon_state s.cannon_count).1
        s.target_x_screen s.target_y_screen
        (Process_Ties r s.misses s.ties).1
        ⟨Process_Explosions s.explosions, s.score, s.hits⟩).2.1.explosions := by
  have hne : ¬(s.game_state = GAME_RUNNING) := by
    rw [hover]; decide
  have h0 : frameStep b r s = framePost r s := by
    simp only [frameStep, if_neg hne]
  have h02 : frameStep b2 r s = framePost r s := by
    simp only [frameStep, if_neg hne]
  refine ⟨h0, h0.trans h02.symm, ?_, ?_, ?_, ?_, ?_, ?_, ?_, ?_, ?_, ?_⟩ <;>
    rw [h0] <;> rfl

/-- Witness for C10 at the concrete game-over state: the frame ignores the
buttons and leaves the crosshair offset and player z velocity alone. -/
theorem claim_C10_witness :
    frameStep exButtons (fun _ => 0) exGSover =
      frameStep exButtonsAll (fun _ => 0) exGSover ∧
    (frameStep exButtons (fun _ => 0) exGSover).cross_x = exGSover.cross_x ∧
    (frameStep exButtons (fun _ => 0) exGSover).player_z_vel =
      exGSover.player_z_vel := by
  obtain ⟨-, he, hcx, -, hp, -⟩ :=
    claim_C10_game_over_frame exButtons exButtonsAll (fun _ => 0) exGSover rfl
  exact ⟨he, hcx, hp⟩

/-! ## Claim C2 — projection depth guards -/

theorem tie_model_flat : ∀ e : Fin NUM_TIE_EDGES,
    (tie_vlist (tie_shape e).v1).z = 0 ∧ (tie_vlist (tie_shape e).v2).z = 0 := by
  intro e
  fin_cases e <;> exact ⟨rfl, rfl⟩

theorem process_ties_depth (ties : List TIE) :
    ∀ (r : ℕ → ℕ) (m : Int) (t : TIE),
      t ∈ (Process_Ties r m ties).1 → t.state ≠ 0 → (NEAR_Z : ℚ) < t.z := by
  induction ties with
  | nil => intro r m t ht _; simp [Process_Ties] at ht
  | cons hd rest ih =>
    intro r m t ht hst
    simp only [Process_Ties] at ht
    by_cases h0 : hd.state = 0
    · rw [if_pos h0] at ht
      rcases List.mem_cons.mp ht with rfl | hmem
      · exact absurd h0 hst
      · exact ih r m t hmem hst
    · rw [if_neg h0] at ht
      by_cases hz : hd.z + hd.zv ≤ (NEAR_Z : ℚ)
      · rw [if_pos hz] at ht
        rcases List.mem_cons.mp ht with rfl | hmem
        · show (NEAR_Z : ℚ) < 2 * (FAR_Z : ℚ)
          norm_num [NEAR_Z, FAR_Z]
        · exact ih (shift r 5) (int8wrap (m + 1)) t hmem hst
      · rw [if_neg hz] at ht
        rcases List.mem_cons.mp ht with rfl | hmem
        · simpa using not_le.mp hz
        · exact ih r m t hmem hst

/-- C2 counterexample: an active explosion whose edge endpoints sit at depth
exactly NEAR_Z passes the near-plane test of Draw_Explosions (which skips an
edge only when the depth is strictly below NEAR_Z), so its endpoints ARE
projected — divided by their depth — although that depth does not exceed the
near clipping plane threshold. -/
theorem claim_C2_counterexample :
    exExplAtNear.state ≠ 0 ∧
    explEdgeVisible exExplAtNear 0 = true ∧
    (exExplAtNear.p1 0).z = (NEAR_Z : ℚ) ∧
    ¬((NEAR_Z : ℚ) < (exExplAtNear.p1 0).z) := by
  refine ⟨by norm_num [exExplAtNear], ?_, rfl, by simp [exExplAtNear]⟩
  simp only [explEdgeVisible, exExplAtNear, decide_eq_true_eq]
  simp

/-- C2 (amended): no projection ever divides by zero or a near-zero depth,
but the guarantee at the near plane is not strict everywhere: stars are only
projected after the starfield move leaves every depth strictly above NEAR_Z;
ties are only projected when alive after the tie update leaves them strictly
above NEAR_Z (and the per-vertex divisor equals the tie depth, the model
being flat in z); explosion edges are projected exactly when not fully in
front of the near plane, which — together with the invariant that both
endpoints of an edge share one depth, established at creation and preserved
by aging — bounds their projection divisors by depth AT LEAST NEAR_Z
(equality is possible, the guard of Draw_Explosions being strict). -/
theorem claim_C2_projection_depth_guard :
    (∀ (pzv : Int) (stars : List POINT3D) (st : POINT3D),
      st ∈ Move_Starfield pzv stars → (NEAR_Z : ℚ) < st.z) ∧
    (∀ (r : ℕ → ℕ) (m : Int) (ties : List TIE) (t : TIE),
      t ∈ (Process_Ties r m ties).1 → t.state ≠ 0 → (NEAR_Z : ℚ) < t.z) ∧
    (∀ (t : TIE) (e : Fin NUM_TIE_EDGES),
      (tie_vlist (tie_shape e).v1).z + t.z = t.z ∧
      (tie_vlist (tie_shape e).v2).z + t.z = t.z) ∧
    (∀ (t : TIE) (r : ℕ → ℕ) (i : Fin NUM_TIE_EDGES),
      ((explosionFrom t r).p1 i).z = ((explosionFrom t r).p2 i).z) ∧
    (∀ pool : List EXPL,
      (∀ e ∈ pool, ∀ i, (e.p1 i).z = (e.p2 i).z) →
      ∀ e2 ∈ Process_Explosions pool, ∀ i, (e2.p1 i).z = (e2.p2 i).z) ∧
    (∀ (e : EXPL) (i : Fin NUM_TIE_EDGES),
      (∀ j, (e.p1 j).z = (e.p2 j).z) →
      explEdgeVisible e i = true →
      (NEAR_Z : ℚ) ≤ (e.p1 i).z ∧ (NEAR_Z : ℚ) ≤ (e.p2 i).z) := by
  refine ⟨?_, ?_, ?_, ?_, ?_, ?_⟩
  · intro pzv stars st hmem
    obtain ⟨s0, hs0, rfl⟩ := List.mem_map.mp hmem
    simp only [moveStar]
    split
    · show (NEAR_Z : ℚ) < (FAR_Z : ℚ)
      norm_num [NEAR_Z, FAR_Z]
    · rename_i hc
      simpa using not_le.mp hc
  · intro r m ties t
    exact process_ties_depth ties r m t
  · intro t e
    obtain ⟨h1, h2⟩ := tie_model_flat e
    exact ⟨by rw [h1, zero_add], by rw [h2, zero_add]⟩
  · intro t r i
    show t.z + (tie_vlist (tie_shape i).v1).z = t.z + (tie_vlist (tie_shape i).v2).z
    obtain ⟨h1, h2⟩ := tie_model_flat i
    rw [h1, h2]
  · intro pool hinv e2 he2 i
    simp only [Process_Explosions, List.mem_map] at he2
    obtain ⟨e, he, rfl⟩ := he2
    by_cases h0 : e.state = 0
    · simpa [h0] using hinv e he i
    · have hz := hinv e he i
      rw [if_neg h0]
      split <;> simp [movePoint, hz]
  · intro e i hj hvis
    simp only [explEdgeVisible, decide_eq_true_eq] at hvis
    rcases not_and_or.mp hvis with h | h
    · have h1 := not_lt.mp h
      exact ⟨h1, (hj i) ▸ h1⟩
    · have h2 := not_lt.mp h
      exact ⟨(hj i) ▸ h2, h2⟩

/-- Witness for C2 (amended): a recycled star sits strictly beyond the near
plane; a processed live tie sits strictly beyond the near plane; the
concrete near-plane explosion passes the visibility test with both endpoint
depths at least NEAR_Z; aging preserves the equal-depth invariant of its
edges. -/
theorem claim_C2_witness :
    (NEAR_Z : ℚ) < (moveStar 8 ⟨7, 3, 4, 15⟩).z ∧
    (∀ t ∈ (Process_Ties (fun _ => 0) 0 [⟨1, 0, 0, 2000, 1, 1, -30⟩]).1,
      t.state ≠ 0 → (NEAR_Z : ℚ) < t.z) ∧
    ((NEAR_Z : ℚ) ≤ (exExplAtNear.p1 0).z ∧ (NEAR_Z : ℚ) ≤ (exExplAtNear.p2 0).z) ∧
    (∀ e2 ∈ Process_Explosions [exExplAtNear], ∀ i, (e2.p1 i).z = (e2.p2 i).z) := by
  obtain ⟨ha, hb, -, -, he, hf⟩ := claim_C2_projection_depth_guard
  refine ⟨?_, ?_, ?_, ?_⟩
  · exact ha 8 [⟨7, 3, 4, 15⟩] (moveStar 8 ⟨7, 3, 4, 15⟩) (by simp [Move_Starfield])
  · exact fun t hmem => hb (fun _ => 0) 0 [⟨1, 0, 0, 2000, 1, 1, -30⟩] t hmem
  · refine hf exExplAtNear 0 (fun j => rfl) ?_
    simp only [explEdgeVisible, exExplAtNear, decide_eq_true_eq]
    simp
  · refine he [exExplAtNear] ?_
    intro e hmem i
    rw [List.mem_singleton] at hmem
    subst hmem
    rfl

/-! ## Claim C6 — explosion triggering -/

theorem start_explosion_full (t : TIE) (r : ℕ → ℕ) :
    ∀ pool : List EXPL, (∀ e ∈ pool, e.state ≠ 0) →
      Start_Explosion pool t r = (pool, 0) := by
  intro pool
  induction pool with
  | nil => intro _; rfl
  | cons e rest ih =>
    intro h
    simp only [Start_Explosion]
    rw [if_neg (h e (List.mem_cons_self e rest)),
      ih fun e2 he2 => h e2 (List.mem_cons_of_mem e he2)]

theorem start_explosion_first (t : TIE) (r : ℕ → ℕ) :
    ∀ (pool : List EXPL) (i : ℕ) (ei : EXPL), pool[i]? = some ei →
      ei.state = 0 →
      (∀ j, j < i → ∀ ej, pool[j]? = some ej → ej.state ≠ 0) →
      Start_Explosion pool t r = (pool.set i (explosionFrom t r), 24) := by
  intro pool
  induction pool with
  | nil => intro i ei h; simp at h
  | cons e rest ih =>
    intro i ei hget h0 hfirst
    match i with
    | 0 =>
      rw [List.getElem?_cons_zero] at hget
      injection hget with hget
      subst hget
      simp only [Start_Explosion]
      rw [if_pos h0]
      rfl
    | j + 1 =>
      have he : e.state ≠ 0 :=
        hfirst 0 (Nat.succ_pos j) e List.getElem?_cons_zero
      rw [List.getElem?_cons_succ] at hget
      have hrest : ∀ j2, j2 < j → ∀ ej, rest[j2]? = some ej → ej.state ≠ 0 :=
        fun j2 hj2 ej hej =>
          hfirst (j2 + 1) (Nat.succ_lt_succ hj2) ej
            (by rw [List.getElem?_cons_succ]; exact hej)
      simp only [Start_Explosion]
      rw [if_neg he, ih j ei hget h0 hrest]
      rfl

/-- C6: triggering an explosion activates exactly the first inactive slot of
the pool — replacing it by the record initialized from the destroyed tie
world-space geometry and leaving every other slot unchanged — while with no
inactive slot the trigger is a no-op: the pool is returned untouched and no
random value is consumed, and the surrounding hit handling of Draw_Ties
still scores exactly as usual (score, hit counter and respawn use the same
random values they would have used), so pool exhaustion has no gameplay
impact. -/
theorem claim_C6_explosion_trigger (pool : List EXPL) (t : TIE) (r : ℕ → ℕ)
    (cs tx ty sc hh : Int) :
    ((∀ e ∈ pool, e.state ≠ 0) → Start_Explosion pool t r = (pool, 0)) ∧
    (∀ (i : ℕ) (ei : EXPL), pool[i]? = some ei → ei.state = 0 →
      (∀ j, j < i → ∀ ej, pool[j]? = some ej → ej.state ≠ 0) →
      Start_Explosion pool t r = (pool.set i (explosionFrom t r), 24)) ∧
    ((explosionFrom t r).state = 1 ∧ (explosionFrom t r).counter = 0) ∧
    ((∀ e ∈ pool, e.state ≠ 0) → tieHit cs tx ty t = true → t.state ≠ 0 →
      Draw_Ties r cs tx ty [t] ⟨pool, sc, hh⟩ =
        ([Init_Tie r], ⟨pool, int16wrap (sc + ratTrunc t.z), int8wrap (hh + 1)⟩, 5)) := by
  refine ⟨start_explosion_full t r pool, start_explosion_first t r pool, ⟨rfl, rfl⟩, ?_⟩
  intro hfull hhit hst
  have hse := start_explosion_full t r pool hfull
  simp [Draw_Ties, hst, hhit, hse, shift_zero]

theorem exTie_screen0 : tieVertexScreen exTie 0 = (24, 40) := by
  apply tieVertexScreen_eq <;>
    · simp only [show tie_vlist (0 : Fin NUM_TIE_VERTS) = ⟨rgb_white, -40, 40, 0⟩ from rfl]
      norm_num [exTie, WINDOW_WIDTH, WINDOW_HEIGHT, VIEW_DISTANCE]

theorem exTie_screen1 : tieVertexScreen exTie 1 = (24, 80) := by
  apply tieVertexScreen_eq <;>
    · simp only [show tie_vlist (1 : Fin NUM_TIE_VERTS) = ⟨rgb_white, -40, 0, 0⟩ from rfl]
      norm_num [exTie, WINDOW_WIDTH, WINDOW_HEIGHT, VIEW_DISTANCE]

theorem exTie_screen2 : tieVertexScreen exTie 2 = (24, 120) := by
  apply tieVertexScreen_eq <;>
    · simp only [show tie_vlist (2 : Fin NUM_TIE_VERTS) = ⟨rgb_white, -40, -40, 0⟩ from rfl]
      norm_num [exTie, WINDOW_WIDTH, WINDOW_HEIGHT, VIEW_DISTANCE]

theorem exTie_screen3 : tieVertexScreen exTie 3 = (54, 80) := by
  apply tieVertexScreen_eq <;>
    · simp only [show tie_vlist (3 : Fin NUM_TIE_VERTS) = ⟨rgb_white, -10, 0, 0⟩ from rfl]
      norm_num [exTie, WINDOW_WIDTH, WINDOW_HEIGHT, VIEW_DISTANCE]

theorem exTie_screen4 : tieVertexScreen exTie 4 = (64, 60) := by
  apply tieVertexScreen_eq <;>
    · simp only [show tie_vlist (4 : Fin NUM_TIE_VERTS) = ⟨rgb_white, 0, 20, 0⟩ from rfl]
      norm_num [exTie, WINDOW_WIDTH, WINDOW_HEIGHT, VIEW_DISTANCE]

theorem exTie_screen5 : tieVertexScreen exTie 5 = (74, 80) := by
  apply tieVertexScreen_eq <;>
    · simp only [show tie_vlist (5 : Fin NUM_TIE_VERTS) = ⟨rgb_white, 10, 0, 0⟩ from rfl]
      norm_num [exTie, WINDOW_WIDTH, WINDOW_HEIGHT, VIEW_DISTANCE]

theorem exTie_screen6 : tieVertexScreen exTie 6 = (64, 100) := by
  apply tieVertexScreen_eq <;>
    · simp only [show tie_vlist (6 : Fin NUM_TIE_VERTS) = ⟨rgb_white, 0, -20, 0⟩ from rfl]
      norm_num [exTie, WINDOW_WIDTH, WINDOW_HEIGHT, VIEW_DISTANCE]

theorem exTie_screen7 : tieVertexScreen exTie 7 = (104, 40) := by
  apply tieVertexScreen_eq <;>
    · simp only [show tie_vlist (7 : Fin NUM_TIE_VERTS) = ⟨rgb_white, 40, 40, 0⟩ from rfl]
      norm_num [exTie, WINDOW_WIDTH, WINDOW_HEIGHT, VIEW_DISTANCE]

theorem exTie_screen8 : tieVertexScreen exTie 8 = (104, 80) := by
  apply tieVertexScreen_eq <;>
    · simp only [show tie_vlist (8 : Fin NUM_TIE_VERTS) = ⟨rgb_white, 40, 0, 0⟩ from rfl]
      norm_num [exTie, WINDOW_WIDTH, WINDOW_HEIGHT, VIEW_DISTANCE]

theorem exTie_screen9 : tieVertexScreen exTie 9 = (104, 120) := by
  apply tieVertexScreen_eq <;>
    · simp only [show tie_vlist (9 : Fin NUM_TIE_VERTS) = ⟨rgb_white, 40, -40, 0⟩ from rfl]
      norm_num [exTie, WINDOW_WIDTH, WINDOW_HEIGHT, VIEW_DISTANCE]

theorem exTie_bbox : tieBBox exTie = (24, 104, 40, 120) := by
  have hfr : List.finRange NUM_TIE_EDGES = [0, 1, 2, 3, 4, 5, 6, 7] := by decide
  rw [tieBBox, hfr]
  simp only [List.foldl,
    show tie_shape (0 : Fin NUM_TIE_EDGES) = ⟨rgb_green, 0, 2⟩ from rfl,
    show tie_shape (1 : Fin NUM_TIE_EDGES) = ⟨rgb_green, 1, 3⟩ from rfl,
    show tie_shape (2 : Fin NUM_TIE_EDGES) = ⟨rgb_green, 3, 4⟩ from rfl,
    show tie_shape (3 : Fin NUM_TIE_EDGES) = ⟨rgb_green, 4, 5⟩ from rfl,
    show tie_shape (4 : Fin NUM_TIE_EDGES) = ⟨rgb_green, 5, 6⟩ from rfl,
    show tie_shape (5 : Fin NUM_TIE_EDGES) = ⟨rgb_green, 6, 3⟩ from rfl,
    show tie_shape (6 : Fin NUM_TIE_EDGES) = ⟨rgb_green, 5, 8⟩ from rfl,
    show tie_shape (7 : Fin NUM_TIE_EDGES) = ⟨rgb_green, 7, 9⟩ from rfl,
    exTie_screen0, exTie_screen1, exTie_screen2, exTie_screen3, exTie_screen4,
    exTie_screen5, exTie_screen6, exTie_screen7, exTie_screen8, exTie_screen9]
  norm_num

theorem exTie_hit : tieHit 1 64 80 exTie = true := by
  simp only [tieHit, exTie_bbox]
  norm_num

/-- Witness for C6: with the one-slot pool fully active, the trigger leaves
the pool untouched and consumes no randomness, and the hit on the concrete
centered tie is still scored and the tie still respawned. -/
theorem claim_C6_witness :
    Start_Explosion [exExplActive] exTie (fun _ => 0) = ([exExplActive], 0) ∧
    Draw_Ties (fun _ => 0) 1 64 80 [exTie] ⟨[exExplActive], 10, 2⟩ =
      ([Init_Tie (fun _ => 0)],
        ⟨[exExplActive], int16wrap (10 + ratTrunc exTie.z), int8wrap (2 + 1)⟩, 5) := by
  obtain ⟨h1, -, -, h4⟩ :=
    claim_C6_explosion_trigger [exExplActive] exTie (fun _ => 0) 1 64 80 10 2
  have hfull : ∀ e ∈ [exExplActive], e.state ≠ 0 := by
    intro e he
    rw [List.mem_singleton] at he
    subst he
    norm_num [exExplActive]
  exact ⟨h1 hfull, h4 hfull exTie_hit (by norm_num [exTie])⟩

end Raiders3D
